import Mathlib

/-!
Verification of the substitution engine in `update-schedule-page.py`.

The script reads one target file, applies seven literal text substitutions
with Python's `str.replace(old, new)` (count omitted, so every
non-overlapping occurrence is replaced, scanning left to right), and writes
the result back.  We embed the text transformation over `List Char`,
model the file transaction as explicit state passing, and settle the
spec's claims about it.
-/

namespace DienstplanUpdate

/-- Does the pattern (first argument) stand at the head of the text
(second argument)?  This is the positional test Python's `str.replace`
scan performs at each index. -/
def hasLead : List Char → List Char → Bool
  | [], _ => true
  | _ :: _, [] => false
  | c :: p, d :: s => if c = d then hasLead p s else false

/-- Substring containment, Python's `needle in haystack`. -/
def occursIn (b : List Char) : List Char → Bool
  | [] => hasLead b []
  | s@(_ :: cs) => hasLead b s || occursIn b cs

/-- The scan of CPython's `str.replace` for a non-empty pattern `a`:
at each position, if `a` matches, emit `r` and resume after the match;
otherwise keep one character and advance.  `fuel` bounds the recursion
(callers pass the text length, which suffices because `a` is non-empty). -/
def replGo (a r : List Char) : Nat → List Char → List Char
  | _, [] => []
  | 0, s => s
  | fuel + 1, c :: cs =>
    if hasLead a (c :: cs) then r ++ replGo a r fuel (List.drop a.length (c :: cs))
    else c :: replGo a r fuel cs

/-- Python `s.replace("", r)` interleaves `r` before every character and
once at the end. -/
def emptyPatRepl (r : List Char) : List Char → List Char
  | [] => r
  | c :: cs => r ++ c :: emptyPatRepl r cs

/-- Embedding of Python `s.replace(a, r)` (no count argument): replaces
every non-overlapping occurrence of `a`, scanning left to right. -/
def pyReplace (a r s : List Char) : List Char :=
  if a = [] then emptyPatRepl r s else replGo a r s.length s

/-- Scan companion of `replGo`: the segments of the text between the
replaced occurrences of `a` (Python `s.split(a)` for non-empty `a`). -/
def splitGo (a : List Char) : Nat → List Char → List (List Char)
  | _, [] => [[]]
  | 0, s => [s]
  | fuel + 1, c :: cs =>
    if hasLead a (c :: cs) then [] :: splitGo a fuel (List.drop a.length (c :: cs))
    else
      match splitGo a fuel cs with
      | [] => [[c]]
      | seg :: rest => (c :: seg) :: rest

/-- The anchor-separated segments of `s` (non-empty anchor). -/
def pySplit (a s : List Char) : List (List Char) :=
  splitGo a s.length s

/-- Join a list of segments, placing `sep` between consecutive ones. -/
def joinWith (sep : List Char) : List (List Char) → List Char
  | [] => []
  | [x] => x
  | x :: y :: rest => x ++ sep ++ joinWith sep (y :: rest)

/-- A substitution step: one anchor block paired with one replacement
block (an `old_*`/`new_*` pair of the script). -/
structure Step where
  anchor : List Char
  repl : List Char
deriving DecidableEq

/-- One `content = content.replace(old_x, new_x)` line of the script. -/
def applyStep (s : List Char) (st : Step) : List Char :=
  pyReplace st.anchor st.repl s

/-- The pipeline: the steps folded over the buffer in declared order,
each step's input being the previous step's output. -/
def runPipeline (steps : List Step) (s : List Char) : List Char :=
  steps.foldl applyStep s

/-- The sub-sequence of steps whose anchor occurs in the buffer at the
moment the step executes. -/
def matchedSteps : List Step → List Char → List Step
  | [], _ => []
  | st :: rest, s =>
    if occursIn st.anchor s then st :: matchedSteps rest (applyStep s st)
    else matchedSteps rest (applyStep s st)

/-! The fourteen literal blocks of the script, named as in the source. -/

def old_imports : String :=
  "import \x7b\n    Calendar,\n    List,\n    Plus,\n    Edit2,\n    Trash2,\n    ChevronLeft,\n    ChevronRight,\n    ChevronDown,\n    ChevronUp,\n    X,\n    Save,\n    ExternalLink,\n    Eye,\n    RotateCcw\n\x7d from \"lucide-react\""

def new_imports : String :=
  "import \x7b\n    Calendar,\n    List,\n    Plus,\n    Edit2,\n    Trash2,\n    ChevronLeft,\n    ChevronRight,\n    ChevronDown,\n    ChevronUp,\n    X,\n    Save,\n    ExternalLink,\n    Eye,\n    RotateCcw,\n    Copy,\n    HelpCircle\n\x7d from \"lucide-react\""

def old_component_imports : String :=
  "import \x7b useAdminSchedule \x7d from \"@/hooks/use-admin-data\"\nimport TimesheetDetail from \"@/components/TimesheetDetail\""

def new_component_imports : String :=
  "import \x7b useAdminSchedule \x7d from \"@/hooks/use-admin-data\"\nimport \x7b useKeyboardShortcuts \x7d from \"@/hooks/use-keyboard-shortcuts\"\nimport TimesheetDetail from \"@/components/TimesheetDetail\"\nimport DuplicateShiftModal from \"@/components/DuplicateShiftModal\"\nimport KeyboardShortcutsHelp from \"@/components/KeyboardShortcutsHelp\""

def old_timesheet_state : String :=
  "    // TimesheetDetail Modal State\n    const [showTimesheetDetail, setShowTimesheetDetail] = useState(false)\n    const [selectedTimesheetData, setSelectedTimesheetData] = useState<\x7b\n        employeeId: string\n        clientId: string\n    \x7d | null>(null)"

def new_timesheet_state : String :=
  "    // TimesheetDetail Modal State\n    const [showTimesheetDetail, setShowTimesheetDetail] = useState(false)\n    const [selectedTimesheetData, setSelectedTimesheetData] = useState<\x7b\n        employeeId: string\n        clientId: string\n    \x7d | null>(null)\n\n    // Duplicate Shift Modal State\n    const [showDuplicateModal, setShowDuplicateModal] = useState(false)\n    const [shiftToDuplicate, setShiftToDuplicate] = useState<Shift | null>(null)\n\n    // Keyboard Shortcuts Help Modal State\n    const [showShortcutsHelp, setShowShortcutsHelp] = useState(false)"

def old_navigate_section : String :=
  "    const closeTimesheetPreview = () => \x7b\n        setShowTimesheetDetail(false)\n        setSelectedTimesheetData(null)\n    \x7d\n\n    const navigateMonth = (delta: number) => \x7b"

def new_navigate_section : String :=
  "    const closeTimesheetPreview = () => \x7b\n        setShowTimesheetDetail(false)\n        setSelectedTimesheetData(null)\n    \x7d\n\n    // Duplicate Shift Handler\n    const openDuplicateModal = useCallback((shift: Shift) => \x7b\n        setShiftToDuplicate(shift)\n        setShowDuplicateModal(true)\n    \x7d, [])\n\n    const handleDuplicateShift = async (targetDate: string) => \x7b\n        if (!shiftToDuplicate) return\n\n        try \x7b\n            const res = await fetch(\"/api/admin/schedule\", \x7b\n                method: \"POST\",\n                headers: \x7b \"Content-Type\": \"application/json\" \x7d,\n                body: JSON.stringify(\x7b\n                    employeeId: shiftToDuplicate.employee.id,\n                    date: targetDate,\n                    plannedStart: shiftToDuplicate.plannedStart,\n                    plannedEnd: shiftToDuplicate.plannedEnd,\n                    backupEmployeeId: shiftToDuplicate.backupEmployee?.id || null,\n                    note: shiftToDuplicate.note || null\n                \x7d)\n            \x7d)\n\n            if (res.ok) \x7b\n                showToast(\"success\", \"Schicht erfolgreich dupliziert\")\n                setShowDuplicateModal(false)\n                setShiftToDuplicate(null)\n                mutate() // Revalidate data\n            \x7d else \x7b\n                const data = await res.json()\n                showToast(\"error\", data.error || \"Fehler beim Duplizieren\")\n            \x7d\n        \x7d catch (error) \x7b\n            console.error(\"Duplication error:\", error)\n            showToast(\"error\", \"Netzwerkfehler beim Duplizieren\")\n        \x7d\n    \x7d\n\n    // Keyboard Shortcuts\n    useKeyboardShortcuts(\x7b\n        onNewShift: () => !showModal && !showDuplicateModal && !showShortcutsHelp && openCreateModal(),\n        onEscape: () => \x7b\n            if (showModal) setShowModal(false)\n            else if (showDuplicateModal) setShowDuplicateModal(false)\n            else if (showShortcutsHelp) setShowShortcutsHelp(false)\n            else if (showTimesheetDetail) closeTimesheetPreview()\n        \x7d,\n        onSave: () => showModal && handleCreateOrUpdate(),\n        onPrevMonth: () => !showModal && !showDuplicateModal && !showShortcutsHelp && navigateMonth(-1),\n        onNextMonth: () => !showModal && !showDuplicateModal && !showShortcutsHelp && navigateMonth(1),\n        onListView: () => !showModal && !showDuplicateModal && !showShortcutsHelp && setViewMode(\"list\"),\n        onCalendarView: () => !showModal && !showDuplicateModal && !showShortcutsHelp && setViewMode(\"calendar\"),\n        onHelp: () => setShowShortcutsHelp(prev => !prev)\n    \x7d, true)\n\n    const navigateMonth = (delta: number) => \x7b"

def old_header_buttons : String :=
  "                    <div className=\"flex items-center gap-3\">\n                        \x7b/* View Toggle */\x7d\n                        <div className=\"flex bg-neutral-800 rounded-lg p-1\">"

def new_header_buttons : String :=
  "                    <div className=\"flex items-center gap-3\">\n                        \x7b/* Keyboard Shortcuts Help */\x7d\n                        <button\n                            onClick=\x7b() => setShowShortcutsHelp(true)\x7d\n                            className=\"p-2 hover:bg-neutral-800 rounded-lg transition text-neutral-400 hover:text-white\"\n                            title=\"Tastenkombinationen (Drücke ?)\"\n                            aria-label=\"Tastenkombinationen anzeigen\"\n                        >\n                            <HelpCircle size=\x7b20\x7d />\n                        </button>\n\n                        \x7b/* View Toggle */\x7d\n                        <div className=\"flex bg-neutral-800 rounded-lg p-1\">"

def old_action_buttons : String :=
  "                                                                    <div className=\"flex gap-1 justify-end\">\n                                                                        <button\n                                                                            onClick=\x7b(e) => \x7b\n                                                                                e.stopPropagation()\n                                                                                openTimesheetPreview(shift)\n                                                                            \x7d\x7d\n                                                                            className=\"p-1.5 text-neutral-500 hover:text-violet-400 hover:bg-violet-900/30 rounded transition\"\n                                                                            title=\"Stundennachweis anzeigen\"\n                                                                        >\n                                                                            <Eye size=\x7b14\x7d />\n                                                                        </button>\n                                                                        <button\n                                                                            onClick=\x7b() => openEditModal(shift)\x7d\n                                                                            className=\"p-1.5 text-neutral-500 hover:text-blue-400 hover:bg-blue-900/30 rounded transition\"\n                                                                        >\n                                                                            <Edit2 size=\x7b14\x7d />\n                                                                        </button>\n                                                                        <button\n                                                                            onClick=\x7b() => handleDelete(shift.id)\x7d\n                                                                            className=\"p-1.5 text-neutral-500 hover:text-red-400 hover:bg-red-900/30 rounded transition\"\n                                                                        >\n                                                                            <Trash2 size=\x7b14\x7d />\n                                                                        </button>\n                                                                    </div>"

def new_action_buttons : String :=
  "                                                                    <div className=\"flex gap-1 justify-end\">\n                                                                        <button\n                                                                            onClick=\x7b(e) => \x7b\n                                                                                e.stopPropagation()\n                                                                                openTimesheetPreview(shift)\n                                                                            \x7d\x7d\n                                                                            className=\"p-1.5 text-neutral-500 hover:text-violet-400 hover:bg-violet-900/30 rounded transition\"\n                                                                            title=\"Stundennachweis anzeigen\"\n                                                                        >\n                                                                            <Eye size=\x7b14\x7d />\n                                                                        </button>\n                                                                        <button\n                                                                            onClick=\x7b(e) => \x7b\n                                                                                e.stopPropagation()\n                                                                                openDuplicateModal(shift)\n                                                                            \x7d\x7d\n                                                                            className=\"p-1.5 text-neutral-500 hover:text-violet-400 hover:bg-violet-900/30 rounded transition\"\n                                                                            title=\"Schicht duplizieren\"\n                                                                        >\n                                                                            <Copy size=\x7b14\x7d />\n                                                                        </button>\n                                                                        <button\n                                                                            onClick=\x7b() => openEditModal(shift)\x7d\n                                                                            className=\"p-1.5 text-neutral-500 hover:text-blue-400 hover:bg-blue-900/30 rounded transition\"\n                                                                        >\n                                                                            <Edit2 size=\x7b14\x7d />\n                                                                        </button>\n                                                                        <button\n                                                                            onClick=\x7b() => handleDelete(shift.id)\x7d\n                                                                            className=\"p-1.5 text-neutral-500 hover:text-red-400 hover:bg-red-900/30 rounded transition\"\n                                                                        >\n                                                                            <Trash2 size=\x7b14\x7d />\n                                                                        </button>\n                                                                    </div>"

def old_timesheet_modal : String :=
  "                \x7b/* Timesheet Detail Modal */\x7d\n                \x7bshowTimesheetDetail && selectedTimesheetData && (\n                    <TimesheetDetail\n                        employeeId=\x7bselectedTimesheetData.employeeId\x7d\n                        clientId=\x7bselectedTimesheetData.clientId\x7d\n                        month=\x7bmonth\x7d\n                        year=\x7byear\x7d\n                        onClose=\x7bcloseTimesheetPreview\x7d\n                    />\n                )\x7d\n            </div>\n        </div>\n    )\n\x7d"

def new_timesheet_modal : String :=
  "                \x7b/* Timesheet Detail Modal */\x7d\n                \x7bshowTimesheetDetail && selectedTimesheetData && (\n                    <TimesheetDetail\n                        employeeId=\x7bselectedTimesheetData.employeeId\x7d\n                        clientId=\x7bselectedTimesheetData.clientId\x7d\n                        month=\x7bmonth\x7d\n                        year=\x7byear\x7d\n                        onClose=\x7bcloseTimesheetPreview\x7d\n                    />\n                )\x7d\n\n                \x7b/* Duplicate Shift Modal */\x7d\n                \x7bshowDuplicateModal && shiftToDuplicate && (\n                    <DuplicateShiftModal\n                        shift=\x7bshiftToDuplicate\x7d\n                        onClose=\x7b() => \x7b\n                            setShowDuplicateModal(false)\n                            setShiftToDuplicate(null)\n                        \x7d\x7d\n                        onDuplicate=\x7bhandleDuplicateShift\x7d\n                    />\n                )\x7d\n\n                \x7b/* Keyboard Shortcuts Help Modal */\x7d\n                \x7bshowShortcutsHelp && (\n                    <KeyboardShortcutsHelp\n                        onClose=\x7b() => setShowShortcutsHelp(false)\x7d\n                    />\n                )\x7d\n            </div>\n        </div>\n    )\n\x7d"

/-- The seven substitution steps of the script, in declared order. -/
def theSteps : List Step :=
  [ ⟨old_imports.data, new_imports.data⟩,
    ⟨old_component_imports.data, new_component_imports.data⟩,
    ⟨old_timesheet_state.data, new_timesheet_state.data⟩,
    ⟨old_navigate_section.data, new_navigate_section.data⟩,
    ⟨old_header_buttons.data, new_header_buttons.data⟩,
    ⟨old_action_buttons.data, new_action_buttons.data⟩,
    ⟨old_timesheet_modal.data, new_timesheet_modal.data⟩ ]

/-- Modelled from the spec (§4.2), for comparison with the code: "returns a
new buffer with the **first** occurrence of `anchor` replaced by
`replacement`; all other occurrences of `anchor` (if any) are left
untouched."  Scans left to right and stops after the first match. -/
def firstGo (a r : List Char) : Nat → List Char → List Char
  | _, [] => []
  | 0, s => s
  | fuel + 1, c :: cs =>
    if hasLead a (c :: cs) then r ++ List.drop a.length (c :: cs)
    else c :: firstGo a r fuel cs

/-- Modelled from the spec (§4.2): replace only the leftmost occurrence. -/
def specFirstReplace (a r s : List Char) : List Char :=
  if a = [] then s else firstGo a r s.length s

/-- The status banner the script prints after the write; a fixed constant,
independent of the buffer and of which anchors matched. -/
def report : List String :=
  ["✅ Schedule page updated successfully!",
   "Added features:",
   "  - Keyboard shortcuts (N, ESC, Ctrl+S, ←, →, L, C, ?)",
   "  - Shift duplication with quick options and custom date picker",
   "  - Keyboard shortcuts help modal"]

/-- How the final `open(path, "w")` / `f.write(content)` can go.  CPython
mode "w" truncates the file when the open succeeds; a failure during the
write therefore leaves a prefix of the new content on disk, while a
failure of the open itself leaves the file untouched. -/
inductive WriteRes
  | ok : WriteRes
  | openFail : WriteRes
  | failDuring : Nat → WriteRes

/-- Transaction outcome: success carries the printed banner. -/
inductive TOutcome
  | success : List String → TOutcome
  | readFailure : TOutcome
  | writeFailure : TOutcome

/-- The whole script as a transaction on the single target file, modelled
by explicit state passing: the first component is the reported outcome,
the second the on-disk content after the run (`none` = file absent).
Reading a missing file aborts before any step; otherwise the pipeline
runs and the buffer is written back according to `w`. -/
def execute (file : Option (List Char)) (w : WriteRes) (steps : List Step) :
    TOutcome × Option (List Char) :=
  match file with
  | none => (TOutcome.readFailure, none)
  | some s =>
    let out := runPipeline steps s
    match w with
    | WriteRes.ok => (TOutcome.success report, some out)
    | WriteRes.openFail => (TOutcome.writeFailure, some s)
    | WriteRes.failDuring n => (TOutcome.writeFailure, some (out.take n))

/-! Small concrete texts used by witnesses and counterexamples. -/

def txNil : List Char := []

def txA : List Char := "a".data

def txB : List Char := "b".data

def txAA : List Char := "aa".data

def txBB : List Char := "bb".data

def txBA : List Char := "ba".data

def txAB : List Char := "ab".data

def txCA : List Char := "ca".data

def txABB : List Char := "abb".data

def txCAB : List Char := "cab".data

def txX : List Char := "x".data

def txY : List Char := "y".data

def txZ : List Char := "z".data

def txABC : List Char := "abc".data

/-- A step rewriting `x` to `y`. -/
def stepXY : Step := ⟨txX, txY⟩

/-- A step rewriting `y` to `z`: its anchor is introduced by `stepXY`. -/
def stepYZ : Step := ⟨txY, txZ⟩

/-! Characterizations of the scan primitives. -/

theorem hasLead_iff (p : List Char) : ∀ s, hasLead p s = true ↔ ∃ w, s = p ++ w := by
  induction p with
  | nil => intro s; simp [hasLead]
  | cons c p ih =>
    intro s
    cases s with
    | nil => simp [hasLead]
    | cons d s =>
      by_cases h : c = d
      · subst h
        simp [hasLead, ih s]
      · have h' : ¬ d = c := fun hh => h hh.symm
        simp [hasLead, h, h']

theorem occursIn_iff (b : List Char) : ∀ s, occursIn b s = true ↔ ∃ u w, s = u ++ b ++ w := by
  intro s
  induction s with
  | nil =>
    simp only [occursIn, hasLead_iff]
    constructor
    · rintro ⟨w, hw⟩
      exact ⟨[], w, by simpa using hw⟩
    · rintro ⟨u, w, hw⟩
      have h : u = [] ∧ b = [] ∧ w = [] := by simpa using hw.symm
      exact ⟨[], by simp [h.2.1]⟩
  | cons c cs ih =>
    simp only [occursIn, Bool.or_eq_true, hasLead_iff, ih]
    constructor
    · rintro (⟨w, hw⟩ | ⟨u, w, hw⟩)
      · exact ⟨[], w, by simpa using hw⟩
      · exact ⟨c :: u, w, by simp [hw]⟩
    · rintro ⟨u, w, hw⟩
      cases u with
      | nil => exact Or.inl ⟨w, by simpa using hw⟩
      | cons x u =>
        injection hw with h1 h2
        exact Or.inr ⟨u, w, h2⟩

theorem occursIn_nil_anchor (s : List Char) : occursIn [] s = true := by
  cases s <;> simp [occursIn, hasLead]

/-! A step whose anchor does not occur leaves the buffer unchanged. -/

theorem noOccur_replGo (a r : List Char) :
    ∀ fuel s, occursIn a s = false → replGo a r fuel s = s := by
  intro fuel
  induction fuel with
  | zero => intro s _; cases s <;> simp [replGo]
  | succ fuel ih =>
    intro s h
    cases s with
    | nil => simp [replGo]
    | cons c cs =>
      have h2 : hasLead a (c :: cs) = false ∧ occursIn a cs = false := by
        simpa [occursIn] using h
      simp [replGo, h2.1, ih cs h2.2]

theorem pyReplace_noOccur (a r s : List Char) (h : occursIn a s = false) :
    pyReplace a r s = s := by
  have ha : a ≠ [] := by
    rintro rfl
    rw [occursIn_nil_anchor] at h
    exact Bool.noConfusion h
  simp only [pyReplace, if_neg ha]
  exact noOccur_replGo a r s.length s h

theorem applyStep_noOccur (s : List Char) (st : Step)
    (h : occursIn st.anchor s = false) : applyStep s st = s :=
  pyReplace_noOccur st.anchor st.repl s h

theorem runPipeline_cons (st : Step) (steps : List Step) (s : List Char) :
    runPipeline (st :: steps) s = runPipeline steps (applyStep s st) := rfl

theorem runPipeline_matched :
    ∀ (steps : List Step) (s : List Char),
      runPipeline steps s = runPipeline (matchedSteps steps s) s := by
  intro steps
  induction steps with
  | nil => intro s; rfl
  | cons st rest ih =>
    intro s
    by_cases h : occursIn st.anchor s = true
    · have hm : matchedSteps (st :: rest) s = st :: matchedSteps rest (applyStep s st) := by
        simp [matchedSteps, h]
      rw [runPipeline_cons, ih (applyStep s st), hm, runPipeline_cons]
    · have hf : occursIn st.anchor s = false := by
        cases hh : occursIn st.anchor s
        · rfl
        · exact absurd hh h
      have hid : applyStep s st = s := applyStep_noOccur s st hf
      have hm : matchedSteps (st :: rest) s = matchedSteps rest s := by
        simp [matchedSteps, hf, hid]
      rw [runPipeline_cons, hid, hm, ih s]

theorem runPipeline_noOccurAll (steps : List Step) (s : List Char)
    (h : ∀ st ∈ steps, occursIn st.anchor s = false) : runPipeline steps s = s := by
  induction steps with
  | nil => rfl
  | cons st rest ih =>
    have hid : applyStep s st = s := applyStep_noOccur s st (h st (by simp))
    rw [runPipeline_cons, hid]
    exact ih fun st' hmem => h st' (by simp [hmem])

/-! Fuel does not matter once it covers the text length. -/

theorem replGo_congr (a r : List Char) (ha : a ≠ []) :
    ∀ f₁ f₂ s, s.length ≤ f₁ → s.length ≤ f₂ →
      replGo a r f₁ s = replGo a r f₂ s := by
  have ha1 : 1 ≤ a.length := List.length_pos.mpr ha
  intro f₁
  induction f₁ with
  | zero =>
    intro f₂ s h1 _
    have hs : s = [] := List.length_eq_zero.mp (Nat.le_zero.mp h1)
    subst hs
    cases f₂ <;> simp [replGo]
  | succ f₁ ih =>
    intro f₂ s h1 h2
    cases s with
    | nil => cases f₂ <;> simp [replGo]
    | cons c cs =>
      cases f₂ with
      | zero => simp at h2
      | succ f₂ =>
        simp only [List.length_cons] at h1 h2
        by_cases hl : hasLead a (c :: cs) = true
        · simp only [replGo, hl, if_true]
          have hd : (List.drop a.length (c :: cs)).length ≤ f₁ ∧
              (List.drop a.length (c :: cs)).length ≤ f₂ := by
            rw [List.length_drop, List.length_cons]
            omega
          rw [ih f₂ _ hd.1 hd.2]
        · have hl' : hasLead a (c :: cs) = false := by
            cases hh : hasLead a (c :: cs)
            · rfl
            · exact absurd hh hl
          simp only [replGo, hl', Bool.false_eq_true, if_false]
          rw [ih f₂ cs (by omega) (by omega)]

/-! The replacement scan documents its own leftmost-first behaviour:
the first (leftmost) occurrence of the anchor is rewritten, and the scan
then continues over the remainder of the text. -/

theorem replGo_leftmost (a r : List Char) (ha : a ≠ []) :
    ∀ fuel s, s.length ≤ fuel → occursIn a s = true →
      ∃ u v, s = u ++ a ++ v ∧
        (∀ u' v', s = u' ++ a ++ v' → u.length ≤ u'.length) ∧
        replGo a r fuel s = u ++ r ++ replGo a r v.length v := by
  have ha1 : 1 ≤ a.length := List.length_pos.mpr ha
  intro fuel
  induction fuel with
  | zero =>
    intro s hlen hocc
    have hs : s = [] := List.length_eq_zero.mp (Nat.le_zero.mp hlen)
    subst hs
    cases a with
    | nil => exact absurd rfl ha
    | cons x xs => simp [occursIn, hasLead] at hocc
  | succ fuel ih =>
    intro s hlen hocc
    cases s with
    | nil =>
      cases a with
      | nil => exact absurd rfl ha
      | cons x xs => simp [occursIn, hasLead] at hocc
    | cons c cs =>
      by_cases hl : hasLead a (c :: cs) = true
      · obtain ⟨w, hw⟩ := (hasLead_iff a (c :: cs)).mp hl
        refine ⟨[], w, by simpa using hw, fun u' v' _ => Nat.zero_le _, ?_⟩
        simp only [replGo, hl, if_true, List.nil_append]
        have hdr : List.drop a.length (c :: cs) = w := by
          rw [hw, List.drop_left]
        rw [hdr]
        congr 1
        apply replGo_congr a r ha
        · have : (c :: cs).length = a.length + w.length := by simp [hw]
          simp only [List.length_cons] at this hlen
          omega
        · exact le_rfl
      · have hl' : hasLead a (c :: cs) = false := by
          cases hh : hasLead a (c :: cs)
          · rfl
          · exact absurd hh hl
        have hocc' : occursIn a cs = true := by
          have := hocc
          simp only [occursIn, hl', Bool.false_or] at this
          exact this
        obtain ⟨u, v, hdec, hmin, heq⟩ :=
          ih cs (by simp only [List.length_cons] at hlen; omega) hocc'
        refine ⟨c :: u, v, by simp [hdec], ?_, ?_⟩
        · rintro u' v' hdec'
          cases u' with
          | nil =>
            exfalso
            refine hl ((hasLead_iff a (c :: cs)).mpr ⟨v', ?_⟩)
            simpa using hdec'
          | cons x u' =>
            injection hdec' with hx htail
            simpa using Nat.succ_le_succ (hmin u' v' htail)
        · simp only [replGo, hl', Bool.false_eq_true, if_false, heq]
          simp

/-! The split companion: `replGo` is the join of the anchor-free segments
with the replacement, which is exactly "every non-overlapping occurrence
is rewritten". -/

theorem splitGo_ne_nil (a : List Char) : ∀ f s, splitGo a f s ≠ [] := by
  intro f s
  cases f with
  | zero => cases s <;> simp [splitGo]
  | succ f =>
    cases s with
    | nil => simp [splitGo]
    | cons c cs =>
      by_cases hl : hasLead a (c :: cs) = true
      · simp [splitGo, hl]
      · have hl' : hasLead a (c :: cs) = false := by
          cases hh : hasLead a (c :: cs)
          · rfl
          · exact absurd hh hl
        cases h : splitGo a f cs <;> simp [splitGo, hl', h]

theorem splitGo_head (a : List Char) :
    ∀ f s seg rest, splitGo a f s = seg :: rest → ∃ w, s = seg ++ w := by
  intro f
  induction f with
  | zero =>
    intro s seg rest h
    cases s with
    | nil =>
      simp [splitGo] at h
      exact ⟨[], by simp [h.1]⟩
    | cons c cs =>
      simp [splitGo] at h
      exact ⟨[], by simp [h.1]⟩
  | succ f ih =>
    intro s seg rest h
    cases s with
    | nil =>
      simp [splitGo] at h
      exact ⟨[], by simp [h.1]⟩
    | cons c cs =>
      by_cases hl : hasLead a (c :: cs) = true
      · simp only [splitGo, hl, if_true] at h
        injection h with h1 _
        exact ⟨c :: cs, by simp [h1.symm]⟩
      · have hl' : hasLead a (c :: cs) = false := by
          cases hh : hasLead a (c :: cs)
          · rfl
          · exact absurd hh hl
        simp only [splitGo, hl', Bool.false_eq_true, if_false] at h
        cases hsp : splitGo a f cs with
        | nil => exact absurd hsp (splitGo_ne_nil a f cs)
        | cons seg₀ rest₀ =>
          rw [hsp] at h
          injection h with h1 h2
          obtain ⟨w, hw⟩ := ih cs seg₀ rest₀ hsp
          exact ⟨w, by simp [h1.symm, hw]⟩

theorem splitGo_afree (a : List Char) (ha : a ≠ []) :
    ∀ f s, s.length ≤ f → ∀ seg ∈ splitGo a f s, occursIn a seg = false := by
  have ha1 : 1 ≤ a.length := List.length_pos.mpr ha
  have hnil : occursIn a [] = false := by
    cases a with
    | nil => exact absurd rfl ha
    | cons x xs => simp [occursIn, hasLead]
  intro f
  induction f with
  | zero =>
    intro s hlen seg hmem
    have hs : s = [] := List.length_eq_zero.mp (Nat.le_zero.mp hlen)
    subst hs
    simp [splitGo] at hmem
    simpa [hmem] using hnil
  | succ f ih =>
    intro s hlen seg hmem
    cases s with
    | nil =>
      simp [splitGo] at hmem
      simpa [hmem] using hnil
    | cons c cs =>
      simp only [List.length_cons] at hlen
      by_cases hl : hasLead a (c :: cs) = true
      · simp only [splitGo, hl, if_true, List.mem_cons] at hmem
        rcases hmem with rfl | hmem
        · exact hnil
        · refine ih (List.drop a.length (c :: cs)) ?_ seg hmem
          rw [List.length_drop, List.length_cons]
          omega
      · have hl' : hasLead a (c :: cs) = false := by
          cases hh : hasLead a (c :: cs)
          · rfl
          · exact absurd hh hl
        simp only [splitGo, hl', Bool.false_eq_true, if_false] at hmem
        cases hsp : splitGo a f cs with
        | nil => exact absurd hsp (splitGo_ne_nil a f cs)
        | cons seg₀ rest₀ =>
          rw [hsp] at hmem
          simp only [List.mem_cons] at hmem
          have htail : ∀ sg ∈ splitGo a f cs, occursIn a sg = false :=
            ih cs (by omega)
          rcases hmem with rfl | hmem
          · have h₀ : occursIn a seg₀ = false := htail seg₀ (by simp [hsp])
            have hhead : hasLead a (c :: seg₀) = false := by
              cases hh : hasLead a (c :: seg₀)
              · rfl
              · exfalso
                obtain ⟨w, hw⟩ := (hasLead_iff a (c :: seg₀)).mp hh
                obtain ⟨w', hw'⟩ := splitGo_head a f cs seg₀ rest₀ hsp
                have htrue : hasLead a (c :: cs) = true := by
                  refine (hasLead_iff a (c :: cs)).mpr ⟨w ++ w', ?_⟩
                  calc c :: cs = (c :: seg₀) ++ w' := by simp [hw']
                  _ = (a ++ w) ++ w' := by rw [hw]
                  _ = a ++ (w ++ w') := by rw [List.append_assoc]
                rw [htrue] at hl'
                exact Bool.noConfusion hl'
            simp [occursIn, hhead, h₀]
          · exact htail seg (by simp [hsp, hmem])

theorem replGo_joinWith (a r : List Char) :
    ∀ f s, replGo a r f s = joinWith r (splitGo a f s) := by
  intro f
  induction f with
  | zero => intro s; cases s <;> simp [replGo, splitGo, joinWith]
  | succ f ih =>
    intro s
    cases s with
    | nil => simp [replGo, splitGo, joinWith]
    | cons c cs =>
      by_cases hl : hasLead a (c :: cs) = true
      · simp only [replGo, splitGo, hl, if_true]
        cases hsp : splitGo a f (List.drop a.length (c :: cs)) with
        | nil => exact absurd hsp (splitGo_ne_nil a f _)
        | cons l0 L =>
          rw [ih, hsp]
          simp [joinWith]
      · have hl' : hasLead a (c :: cs) = false := by
          cases hh : hasLead a (c :: cs)
          · rfl
          · exact absurd hh hl
        simp only [replGo, splitGo, hl', Bool.false_eq_true, if_false]
        cases hsp : splitGo a f cs with
        | nil => exact absurd hsp (splitGo_ne_nil a f cs)
        | cons seg₀ rest₀ =>
          rw [ih, hsp]
          cases rest₀ with
          | nil => simp [joinWith]
          | cons y rest' => simp [joinWith]

/-! Claim theorems. -/

/-- Claim C1, counterexample: the claim says only the first (leftmost)
occurrence of the anchor is replaced and every other occurrence is left
verbatim.  On buffer "aa" with step ("a" to "b") the spec-modelled
first-occurrence substitution yields "ba", but the code's
`content.replace` yields "bb": the second occurrence is rewritten too. -/
theorem claim_C1_counterexample :
    occursIn txA txAA = true ∧
    specFirstReplace txA txB txAA = txBA ∧
    pyReplace txA txB txAA = txBB ∧
    txBB ≠ txBA := by decide

/-- Claim C1, amended: for a non-empty anchor occurring in the buffer,
applying the step rewrites the first (leftmost) occurrence of the anchor
to the replacement, and then continues the same substitution over the
remainder of the buffer — so later occurrences are also rewritten rather
than left verbatim. -/
theorem claim_C1_theorem (a r s : List Char) (ha : a ≠ []) (h : occursIn a s = true) :
    ∃ u v, s = u ++ a ++ v ∧
      (∀ u' v', s = u' ++ a ++ v' → u.length ≤ u'.length) ∧
      pyReplace a r s = u ++ r ++ pyReplace a r v := by
  obtain ⟨u, v, h1, h2, h3⟩ := replGo_leftmost a r ha s.length s le_rfl h
  refine ⟨u, v, h1, h2, ?_⟩
  simp only [pyReplace, if_neg ha]
  exact h3

/-- Claim C1, witness: the amended theorem instantiated at buffer "aa",
anchor "a", replacement "b". -/
theorem claim_C1_witness :
    ∃ u v, txAA = u ++ txA ++ v ∧
      (∀ u' v', txAA = u' ++ txA ++ v' → u.length ≤ u'.length) ∧
      pyReplace txA txB txAA = u ++ txB ++ pyReplace txA txB v :=
  claim_C1_theorem txA txB txAA (by decide) (by decide)

/-- Claim C2: a step whose anchor does not occur in the buffer returns the
buffer byte-identical (and raises no error: `pyReplace` is total), and the
pipeline output equals the input transformed only by the sub-sequence of
steps whose anchors matched at their turn. -/
theorem claim_C2_theorem :
    (∀ a r s : List Char, occursIn a s = false → pyReplace a r s = s) ∧
    (∀ (steps : List Step) (s : List Char),
      runPipeline steps s = runPipeline (matchedSteps steps s) s) :=
  ⟨pyReplace_noOccur, runPipeline_matched⟩

/-- Claim C2, witness: anchor "z" does not occur in "ab"; the step is a
no-op there, and the script's pipeline on "ab" equals the matched-steps
pipeline on "ab". -/
theorem claim_C2_witness :
    occursIn txZ txAB = false ∧ pyReplace txZ txY txAB = txAB ∧
    runPipeline theSteps txAB = runPipeline (matchedSteps theSteps txAB) txAB :=
  ⟨by decide, claim_C2_theorem.1 txZ txY txAB (by decide),
    claim_C2_theorem.2 theSteps txAB⟩

set_option maxRecDepth 100000 in
/-- Claim C3, counterexample: the pipeline of seven steps is not
idempotent.  Starting from the `old_timesheet_state` block itself, one run
replaces it by `new_timesheet_state`; because `new_timesheet_state`
contains `old_timesheet_state` as a prefix, a second run matches again and
appends the inserted state block a second time, so run-twice differs from
run-once. -/
theorem claim_C3_counterexample :
    runPipeline theSteps (runPipeline theSteps old_timesheet_state.data) ≠
      runPipeline theSteps old_timesheet_state.data := by decide

/-- Claim C3, amended: applying the pipeline twice yields the same text as
applying it once for precisely those starting texts whose first-run output
contains none of the seven anchors; the unconditional claim fails because
the third step's replacement contains its own anchor. -/
theorem claim_C3_theorem (s : List Char)
    (h : ∀ st ∈ theSteps, occursIn st.anchor (runPipeline theSteps s) = false) :
    runPipeline theSteps (runPipeline theSteps s) = runPipeline theSteps s :=
  runPipeline_noOccurAll theSteps (runPipeline theSteps s) h

/-- Claim C3, witness: on the empty starting text no anchor occurs in the
output, and the double run equals the single run. -/
theorem claim_C3_witness :
    runPipeline theSteps (runPipeline theSteps txNil) = runPipeline theSteps txNil :=
  claim_C3_theorem txNil (by decide)

/-- Claim C4: if step B's anchor does not occur in the buffer but does
occur once step A has been applied, then running [A, B] applies both
replacements (B transforms A's output — the fold is strictly
left-to-right), while running [B, A] makes B a no-op and only A's
replacement lands. -/
theorem claim_C4_theorem (A B : Step) (s : List Char)
    (h1 : occursIn B.anchor s = false)
    (_h2 : occursIn B.anchor (applyStep s A) = true) :
    runPipeline [A, B] s = applyStep (applyStep s A) B ∧
    runPipeline [B, A] s = applyStep s A := by
  refine ⟨rfl, ?_⟩
  show applyStep (applyStep s B) A = applyStep s A
  rw [applyStep_noOccur s B h1]

/-- Claim C4, witness: with A = (x to y), B = (y to z) and buffer "x",
B's anchor appears only after A ran; [A, B] gives "z", [B, A] gives "y". -/
theorem claim_C4_witness :
    runPipeline [stepXY, stepYZ] txX = applyStep (applyStep txX stepXY) stepYZ ∧
    runPipeline [stepYZ, stepXY] txX = applyStep txX stepXY :=
  claim_C4_theorem stepXY stepYZ txX (by decide) (by decide)

/-- Claim C5: a transaction with an empty step list writes back content
byte-identical to the original — the read-then-write round trip with zero
substitutions reproduces the file content exactly (and reports success). -/
theorem claim_C5_theorem (s : List Char) :
    execute (some s) WriteRes.ok [] = (TOutcome.success report, some s) := rfl

/-- Claim C6: when the read fails (file absent or unreadable, modelled as
`none`), the transaction reports ReadFailure, the on-disk state is
unchanged, and no substitution step runs — the result does not depend on
the step list at all. -/
theorem claim_C6_theorem (w : WriteRes) (steps : List Step) :
    execute none w steps = (TOutcome.readFailure, none) ∧
    execute none w steps = execute none w [] :=
  ⟨rfl, rfl⟩

/-- Claim C7: once the write completes the transaction reports the same
fixed success banner unconditionally — the outcome is identical whether
every anchor matched or none did, with no per-step matched/skipped
signal. -/
theorem claim_C7_theorem (s : List Char) (steps : List Step) :
    (execute (some s) WriteRes.ok steps).1 = TOutcome.success report ∧
    ∀ (s' : List Char) (steps' : List Step),
      (execute (some s) WriteRes.ok steps).1 =
        (execute (some s') WriteRes.ok steps').1 :=
  ⟨rfl, fun _ _ => rfl⟩

/-- Claim C8, counterexample: the claim says that on a write failure the
on-disk file remains at its original content.  But the script opens the
target with mode "w", which truncates on open: a write that fails right
after the open leaves the empty file, not the original "abc". -/
theorem claim_C8_counterexample :
    (execute (some txABC) (WriteRes.failDuring 0) []).2 = some txNil ∧
    some txNil ≠ some txABC := by decide

/-- Claim C8, amended: if the open for writing itself fails, the original
content survives; but if the write fails after the open, the file is left
holding a prefix of the transformed buffer (truncating overwrite), not the
original content — the write is not atomic. -/
theorem claim_C8_theorem (s : List Char) (steps : List Step) (n : Nat) :
    (execute (some s) (WriteRes.failDuring n) steps).2 =
      some ((runPipeline steps s).take n) ∧
    (runPipeline steps s).take n ++ (runPipeline steps s).drop n =
      runPipeline steps s ∧
    (execute (some s) WriteRes.openFail steps).2 = some s :=
  ⟨rfl, List.take_append_drop n (runPipeline steps s), rfl⟩

/-- Claim C9, counterexample: the claim says that when the replacement
does not contain the anchor, the returned buffer contains zero occurrences
of the anchor.  With buffer "abb", anchor "ab" and replacement "ca" (which
does not contain "ab") the result is "cab", in which "ab" occurs: a fresh
occurrence can form at the junction of the replacement and the following
text. -/
theorem claim_C9_counterexample :
    occursIn txAB txCA = false ∧
    pyReplace txAB txCA txABB = txCAB ∧
    occursIn txAB txCAB = true := by decide

/-- Claim C9, amended: applying a step rewrites every non-overlapping
occurrence of the anchor, not just the first — the result is exactly the
anchor-free segments of the buffer joined by the replacement; occurrences
of the anchor may nonetheless reappear in the result at junctions, even
when the replacement itself is anchor-free. -/
theorem claim_C9_theorem (a r s : List Char) (ha : a ≠ []) :
    pyReplace a r s = joinWith r (pySplit a s) ∧
    ∀ seg ∈ pySplit a s, occursIn a seg = false := by
  constructor
  · simp only [pyReplace, if_neg ha, pySplit]
    exact replGo_joinWith a r s.length s
  · exact splitGo_afree a ha s.length s le_rfl

/-- Claim C9, witness: the amended theorem instantiated at buffer "abb",
anchor "ab", replacement "ca". -/
theorem claim_C9_witness :
    pyReplace txAB txCA txABB = joinWith txCA (pySplit txAB txABB) ∧
    ∀ seg ∈ pySplit txAB txABB, occursIn txAB seg = false :=
  claim_C9_theorem txAB txCA txABB (by decide)

/-- Claim C10: the transformation is deterministic — the written content
is a pure function of the file's initial text and the step list alone, and
two runs of the script's pipeline on byte-identical input content produce
byte-identical output content. -/
theorem claim_C10_theorem (s : List Char) (steps : List Step) :
    (execute (some s) WriteRes.ok steps).2 = some (runPipeline steps s) ∧
    ∀ s₁ s₂ : List Char, s₁ = s₂ →
      runPipeline theSteps s₁ = runPipeline theSteps s₂ :=
  ⟨rfl, fun s₁ s₂ h => by rw [h]⟩

/-- Claim C10, witness: instantiated at content "x" with the script's own
steps. -/
theorem claim_C10_witness :
    (execute (some txX) WriteRes.ok theSteps).2 = some (runPipeline theSteps txX) ∧
    runPipeline theSteps txX = runPipeline theSteps txX :=
  ⟨(claim_C10_theorem txX theSteps).1, (claim_C10_theorem txX theSteps).2 txX txX rfl⟩

end DienstplanUpdate
